import Mathlib

/-!
Verification of the stolas trait-dispatch engine and the `cases` sum-type
compiler (files `src/stolas/struct/trait.py` and `src/stolas/operand/cases.py`),
shallowly embedded in Lean 4.

Python classes are modelled by natural-number identifiers; the method
resolution order (`__mro__`) of a class is an explicit list parameter
(most specific first, the class itself at the head, as in Python).
Python dicts are modelled as association lists with first-match lookup and
replace-or-append insertion, which preserves the key-uniqueness and
insertion-order semantics of `dict`.
-/

/-- The single-quote character, used by the Python `repr` of strings and by
the f-strings in `trait.py` error messages. -/
def singleQuote : String := (Char.ofNat 39).toString

/-- Payload values a variant instance may hold (enough for the scenarios in
scope: strings and integers). -/
inductive PyVal where
  | str (s : String)
  | int (n : Int)
deriving DecidableEq, Repr

/-- Python `repr` of a payload value.  For the strings in scope (no quotes or
escapes inside), `repr` is the string wrapped in single quotes. -/
def pyRepr : PyVal → String
  | .str s => singleQuote ++ s ++ singleQuote
  | .int n => toString n

/-- Python exception values raised by the code under study. -/
inductive PyErr where
  | typeError (msg : String)
  | notImplementedError (msg : String)
  | attributeError (msg : String)
  | indexError (msg : String)
deriving DecidableEq, Repr

/-! ## Variant factory (`cases.py`)

`_create_value_variant` / `_create_unit_variant` synthesize one class per
variant.  A synthesized class is identified by `cid` (class identity, used by
`type(self) is type(other)` checks) together with the names captured by the
closures of its dunder methods. -/

/-- A synthesized variant class: identity plus the `name` / `parent_name`
captured when `_create_value_variant` or `_create_unit_variant` ran. -/
structure VariantClass where
  cid : Nat
  parentName : String
  vname : String
deriving DecidableEq, Repr

/-- An instance of a value-variant class: the class plus the payload stored in
the `_value` slot by `__init__` (via `object.__setattr__`). -/
structure ValueInst where
  cls : VariantClass
  payload : PyVal
deriving DecidableEq, Repr

/-- `__eq__` of a value variant (cases.py lines 40-43): `False` unless
`type(self) is type(other)`, else payload equality. -/
def valueEq (a b : ValueInst) : Bool :=
  if a.cls.cid = b.cls.cid then decide (a.payload = b.payload) else false

/-- `__repr__` of a value variant (cases.py line 38):
`f"{parent_name}.{name}({self._value!r})"`. -/
def valueRepr (v : ValueInst) : String :=
  v.cls.parentName ++ "." ++ v.cls.vname ++ "(" ++ pyRepr v.payload ++ ")"

/-- Data-attribute read on a value-variant instance.  The synthesized class
has `__slots__ = ("_value",)` and a `value` property returning `self._value`
(cases.py lines 51-68); any other data attribute is absent
(`none` models `AttributeError`). -/
def valueGetAttr (v : ValueInst) (attr : String) : Option PyVal :=
  if attr = "value" ∨ attr = "_value" then some v.payload else none

/-- `__setattr__` of a value variant (cases.py lines 31-32): unconditionally
`raise AttributeError(f"{name} is immutable")`, for every attribute name and
every value. -/
def valueSetAttr (v : ValueInst) (_attr : String) (_val : PyVal) : Except PyErr Unit :=
  .error (.attributeError (v.cls.vname ++ " is immutable"))

/-- `__delattr__` of a value variant (cases.py lines 34-35). -/
def valueDelAttr (v : ValueInst) (_attr : String) : Except PyErr Unit :=
  .error (.attributeError (v.cls.vname ++ " is immutable"))

/-- `__setattr__` of a unit variant (cases.py lines 81-82). -/
def unitSetAttr (cls : VariantClass) (_attr : String) (_val : PyVal) : Except PyErr Unit :=
  .error (.attributeError (cls.vname ++ " is immutable"))

/-- `__delattr__` of a unit variant (cases.py lines 84-85). -/
def unitDelAttr (cls : VariantClass) (_attr : String) : Except PyErr Unit :=
  .error (.attributeError (cls.vname ++ " is immutable"))

/-! ### Unit-variant singleton (`__new__`, cases.py lines 76-79)

The class's `_instance` slot is an `Option Nat` (the object identity of the
stored instance, `none` before first construction); fresh object identities
come from an allocation counter, so the state is `Option Nat × Nat`. -/

/-- One execution of the unit variant's `__new__`:
`if not hasattr(cls, "_instance"): cls._instance = object.__new__(cls)`;
`return cls._instance`.  Returns the identity of the returned object and the
updated (slot, allocator) state. -/
def unitNew : Option Nat × Nat → Nat × (Option Nat × Nat)
  | (some i, ctr) => (i, (some i, ctr))
  | (none, ctr) => (ctr, (some ctr, ctr + 1))

/-- Identity of the object returned by the `(k+1)`-th construction of the unit
variant, starting from state `s`. -/
def unitConstructions (s : Option Nat × Nat) : Nat → Nat
  | 0 => (unitNew s).1
  | k + 1 => unitConstructions (unitNew s).2 k

/-! ### The `cases` decorator (cases.py lines 116-146)

A class annotation is classified by `_is_unit_variant` / `_is_existing_class`
/ the residual value case; `cases` then walks the annotations in order. -/

/-- A variant annotation as seen by `_create_variant`: `None` (the NoneType),
`typing.Any`, or an existing external class (identified by a `Nat`). -/
inductive Annot where
  | noneType
  | anyType
  | extCls (c : Nat)
deriving DecidableEq, Repr

/-- The runtime entity `cases` binds to a variant name: a synthesized unit
class (with its eagerly constructed singleton, cases.py line 139), a
synthesized value class, or the aliased external class. -/
inductive VariantRT where
  | unitV (cls : VariantClass)
  | valueV (cls : VariantClass)
  | aliasV (ext : Nat)
deriving DecidableEq, Repr

/-- `_create_variant` (cases.py lines 116-124): unit check first, then
existing-class check, else value variant.  `idx` is the identity of the
synthesized class (fresh per variant). -/
def createVariant (idx : Nat) (nm : String) (a : Annot) (parent : String) : VariantRT :=
  match a with
  | .noneType => .unitV ⟨idx, parent, nm⟩
  | .extCls c => .aliasV c
  | .anyType => .valueV ⟨idx, parent, nm⟩

/-- The variant map built by the `cases` decorator (cases.py lines 133-141):
one entry per annotation, in declaration order; synthesized classes get
distinct identities (their position index). -/
def casesDecl (parent : String) (annots : List (String × Annot)) :
    List (String × VariantRT) :=
  annots.enum.map (fun p => (p.2.1, createVariant p.1 p.2.1 p.2.2 parent))

/-- First-match association-list lookup (models Python `dict` lookup /
`key in d`). -/
def lookupA {α β : Type} [DecidableEq α] : List (α × β) → α → Option β
  | [], _ => none
  | (k, v) :: rest, k' => if k = k' then some v else lookupA rest k'

/-- Replace-or-append association-list insertion (models `d[k] = v`). -/
def insertA {α β : Type} [DecidableEq α] (l : List (α × β)) (k : α) (v : β) :
    List (α × β) :=
  match l with
  | [] => [(k, v)]
  | (k', v') :: rest =>
      if k' = k then (k, v) :: rest else (k', v') :: insertA rest k v

/-- The `PaymentStatus` declaration of the specification scenario:
`Pending: None`, `Authorized: Any`, `Failed: Any`. -/
def PaymentStatusDecl : List (String × VariantRT) :=
  casesDecl "PaymentStatus"
    [("Pending", .noneType), ("Authorized", .anyType), ("Failed", .anyType)]

/-- The synthesized `PaymentStatus.Authorized` value-variant class. -/
def AuthorizedCls : VariantClass := ⟨1, "PaymentStatus", "Authorized"⟩

/-! ## Union unwrapping (`trait.py` lines 8-24, `cases.py` line 144)

A class id is mapped by an environment to the value of its `_union`
attribute: absent (or `None`), a plain class (the collapse `Union[X] = X`),
or a genuine `typing.Union` with its (nonempty) argument list. -/

/-- The `_union` attribute of a class, as `_unwrap_types` inspects it. -/
inductive UnionVal where
  | noAttr
  | singleCls (c : Nat)
  | multi (a : Nat) (rest : List Nat)
deriving DecidableEq, Repr

/-- `true` iff the value is not a `typing.Union`
(`get_origin(...) is Union` fails). -/
def notMulti : UnionVal → Bool
  | .multi _ _ => false
  | _ => true

/-- An element of the tuple passed to `_unwrap_types`: a class, or a built-in
union expression `A | B | ...` (whose `get_args` are classes). -/
inductive TyArg where
  | ofCls (c : Nat)
  | ofUnion (a : Nat) (rest : List Nat)
deriving DecidableEq, Repr

/-- Deduplication keeping the first occurrence, as `typing.Union[...]`
normalizes its argument list. -/
def dedupFirst : List Nat → List Nat
  | [] => []
  | x :: xs => x :: (dedupFirst xs).filter (fun y => y ≠ x)

/-- `Union[tuple(variant_types)]` as computed by `cases` (cases.py line 144):
Python deduplicates the arguments keeping first occurrences; an empty tuple
yields `None` (`_union = None`), a single remaining type collapses to that
type itself (`Union[X] = X`), and two or more form a real `Union`. -/
def mkUnionVal (cs : List Nat) : UnionVal :=
  match dedupFirst cs with
  | [] => .noAttr
  | [v] => .singleCls v
  | a :: rest => .multi a rest

/-- One iteration of the loop body of `_unwrap_types` (trait.py lines 11-23):
if the element has a `_union` attribute whose origin is `Union`, extend with
its args; else if the element itself is a built-in union, extend with its
args; else append the element unchanged. -/
def unwrapOne (env : Nat → UnionVal) : TyArg → List Nat
  | .ofUnion a rest => a :: rest
  | .ofCls c =>
      match env c with
      | .multi a rest => a :: rest
      | _ => [c]

/-- `_unwrap_types` (trait.py lines 8-24): concatenation of the per-element
unwrapping, in order. -/
def unwrapTypes (env : Nat → UnionVal) (ts : List TyArg) : List Nat :=
  (ts.map (unwrapOne env)).flatten

/-- `_unwrap_types((t,))[0]`, used by the multi-dispatch branch of `impl`
(trait.py line 138).  `unwrapOne` never returns `[]`, so the default is
never taken. -/
def unwrapFirst (env : Nat → UnionVal) (t : TyArg) : Nat :=
  (unwrapOne env t).headD 0

/-! ## Trait dispatcher (`trait.py` lines 27-237)

Implementation functions are identified by a `fid` plus the parameter count
the source never consults; registries and caches map class ids (single
dispatch) or class-id tuples (multi dispatch) to function ids. -/

/-- A Python function as the `impl` decorator receives it: its declared
parameter count and its identity. -/
structure PyFunc where
  paramCount : Nat
  fid : Nat
deriving DecidableEq, Repr

/-- The mutable state of a `TraitDispatcher` (trait.py lines 103-111). -/
structure TraitDispatcher where
  name : String
  regSingle : List (Nat × Nat)
  cacheSingle : List (Nat × Nat)
  regMulti : List (List Nat × Nat)
  cacheMulti : List (List Nat × Nat)
deriving DecidableEq, Repr

/-- First result of applying `f` along a list (a Python
`for ...: if r is not None: return r` loop). -/
def firstSome {α β : Type} (f : α → Option β) : List α → Option β
  | [] => none
  | a :: l =>
      match f a with
      | some b => some b
      | none => firstSome f l

/-- `_find_implementation_single` (trait.py lines 27-41): cache hit, else
first MRO entry present in the registry (cached on success; a miss is not
cached). -/
def findImplementationSingle (mro : Nat → List Nat) (argType : Nat)
    (registry cache : List (Nat × Nat)) : Option Nat × List (Nat × Nat) :=
  match lookupA cache argType with
  | some i => (some i, cache)
  | none =>
      match firstSome (fun m => lookupA registry m) (mro argType) with
      | some i => (some i, insertA cache argType i)
      | none => (none, cache)

/-- The recursive `search_mro` of `_find_implementation_multi` (trait.py
lines 62-73): depth-first over the remaining positions' MROs, accumulating
the current key prefix. -/
def searchMro (registry : List (List Nat × Nat)) :
    List (List Nat) → List Nat → Option Nat
  | [], current => lookupA registry current
  | m :: rest, current =>
      firstSome (fun t => searchMro registry rest (current ++ [t])) m

/-- `_find_implementation_multi` (trait.py lines 44-78): cache hit, else
exact tuple match, else the cartesian MRO search; only a found
implementation is cached. -/
def findImplementationMulti (mro : Nat → List Nat) (argTypes : List Nat)
    (registry cache : List (List Nat × Nat)) :
    Option Nat × List (List Nat × Nat) :=
  match lookupA cache argTypes with
  | some i => (some i, cache)
  | none =>
      match lookupA registry argTypes with
      | some i => (some i, insertA cache argTypes i)
      | none =>
          match searchMro registry (argTypes.map mro) [] with
          | some i => (some i, insertA cache argTypes i)
          | none => (none, cache)

/-- The decorator body of `TraitDispatcher.impl` (trait.py lines 133-147):
with more than one type argument, register the tuple of first constituents
in the multi registry and clear the multi cache; otherwise unwrap and
register every constituent in the single registry and clear the single
cache.  The function's `paramCount` is never consulted. -/
def traitImpl (env : Nat → UnionVal) (d : TraitDispatcher)
    (types_ : List TyArg) (f : PyFunc) : TraitDispatcher :=
  if 1 < types_.length then
    { d with
      regMulti := insertA d.regMulti (types_.map (unwrapFirst env)) f.fid
      cacheMulti := [] }
  else
    { d with
      regSingle := (unwrapTypes env types_).foldl (fun r t => insertA r t f.fid) d.regSingle
      cacheSingle := [] }

/-- Outcome of `TraitDispatcher.__call__`: the resolved implementation
applied (identified by its `fid`), or a raised exception. -/
inductive CallOutcome where
  | ok (fid : Nat)
  | err (e : PyErr)
deriving DecidableEq, Repr

/-- `true` iff the outcome is a raised exception. -/
def CallOutcome.isErr : CallOutcome → Bool
  | .err _ => true
  | .ok _ => false

/-- The dispatch-miss message of the multi-argument branch (trait.py lines
180-186): `f"No implementation of '{self._name}' for types: ({type_names})"`
with `type_names = ", ".join(type(a).__name__ for a in args)`. -/
def multiMissMsg (names : Nat → String) (nm : String) (a : Nat) (rest : List Nat) : String :=
  "No implementation of " ++ singleQuote ++ nm ++ singleQuote
    ++ " for types: (" ++ String.intercalate ", " ((a :: rest).map names) ++ ")"

/-- The dispatch-miss message of the single-argument branch (trait.py lines
188-195): `f"No implementation of '{self._name}' for type: {...__name__}"`. -/
def singleMissMsg (names : Nat → String) (nm : String) (a : Nat) : String :=
  "No implementation of " ++ singleQuote ++ nm ++ singleQuote
    ++ " for type: " ++ names a

/-- The single-dispatch tail of `__call__` (trait.py lines 171-196): resolve
on the first argument's type; on failure warn once and raise
`NotImplementedError`, the message naming all argument types when the multi
registry is nonempty and at least two arguments were passed, the first
argument's type otherwise.  Returns (warnings emitted, outcome) and the
updated dispatcher. -/
def callSingleTail (mro : Nat → List Nat) (names : Nat → String)
    (d : TraitDispatcher) (a : Nat) (rest : List Nat) :
    (List String × CallOutcome) × TraitDispatcher :=
  match findImplementationSingle mro a d.regSingle d.cacheSingle with
  | (some i, c) => (([], .ok i), { d with cacheSingle := c })
  | (none, c) =>
      let d' := { d with cacheSingle := c }
      if d'.regMulti ≠ [] ∧ rest ≠ [] then
        (([multiMissMsg names d'.name a rest],
          .err (.notImplementedError (multiMissMsg names d'.name a rest))), d')
      else
        (([singleMissMsg names d'.name a],
          .err (.notImplementedError (singleMissMsg names d'.name a))), d')

/-- `TraitDispatcher.__call__` (trait.py lines 156-196).  Arguments are
represented by their runtime class ids (`type(arg)`); `names` gives each
class's `__name__`. -/
def traitCall (mro : Nat → List Nat) (names : Nat → String)
    (d : TraitDispatcher) (args : List Nat) :
    (List String × CallOutcome) × TraitDispatcher :=
  match args with
  | [] =>
      (([], .err (.typeError (d.name ++ "() requires at least one argument"))), d)
  | a :: rest =>
      if d.regMulti ≠ [] ∧ rest ≠ [] then
        match findImplementationMulti mro (a :: rest) d.regMulti d.cacheMulti with
        | (some i, c) => (([], .ok i), { d with cacheMulti := c })
        | (none, c) => callSingleTail mro names { d with cacheMulti := c } a rest
      else
        callSingleTail mro names d a rest

/-- Outcome of `TraitDispatcher.require`: a boolean, or a raised exception. -/
inductive RequireResult where
  | val (b : Bool)
  | err (e : PyErr)
deriving DecidableEq, Repr

/-- The single-dispatch tail of `require` (trait.py lines 209-214):
`objs[0]` on an empty tuple raises `IndexError`. -/
def requireSingleTail (mro : Nat → List Nat) (d : TraitDispatcher)
    (objs : List Nat) : RequireResult × TraitDispatcher :=
  match objs with
  | [] => (.err (.indexError "tuple index out of range"), d)
  | o :: _ =>
      match findImplementationSingle mro o d.regSingle d.cacheSingle with
      | (r, c) => (.val r.isSome, { d with cacheSingle := c })

/-- `TraitDispatcher.require` (trait.py lines 198-214). -/
def traitRequire (mro : Nat → List Nat) (d : TraitDispatcher)
    (objs : List Nat) : RequireResult × TraitDispatcher :=
  if d.regMulti ≠ [] ∧ 2 ≤ objs.length then
    match findImplementationMulti mro objs d.regMulti d.cacheMulti with
    | (some _, c) => (.val true, { d with cacheMulti := c })
    | (none, c) => requireSingleTail mro { d with cacheMulti := c } objs
  else
    requireSingleTail mro d objs

/-! ## The position-major cartesian product (specification side)

The spec describes the multi-dispatch search as the first registry hit over
the cartesian product of the per-position MROs, position 0 outermost.  The
product in exactly that enumeration order: -/

/-- All keys `t :: tl` with `t` from `m` (outer) and `tl` from `tails`
(inner), in order. -/
def prependEach (m : List Nat) (tails : List (List Nat)) : List (List Nat) :=
  match m with
  | [] => []
  | t :: ms => tails.map (fun tl => t :: tl) ++ prependEach ms tails

/-- Position-major cartesian product of a list of lists. -/
def cartProd : List (List Nat) → List (List Nat)
  | [] => [[]]
  | m :: rest => prependEach m (cartProd rest)

/-! ## Concrete fixtures

Class ids: `0` = `object`, `1` = `Base`, `2` = `A` (subclass of `Base`),
`3` = `B` (subclass of `Base`); every other id is a class directly below
`object`. -/

/-- An environment with no declared sum types. -/
def env0 : Nat → UnionVal := fun _ => .noAttr

/-- An environment of declared sum types: class `0` is a sum type declared
with the single value-variant class `1` (so its `_union` collapses to that
class); class `2` is a sum type with variant classes `3` and `4`, where
class `3` is itself a sum type (an alias variant) with variant classes `5`
and `6`. -/
def env1 : Nat → UnionVal := fun c =>
  if c = 0 then mkUnionVal [1]
  else if c = 2 then mkUnionVal [3, 4]
  else if c = 3 then mkUnionVal [5, 6]
  else .noAttr

/-- The `__mro__` function of the fixture hierarchy. -/
def mroH : Nat → List Nat := fun c =>
  if c = 2 then [2, 1, 0] else if c = 3 then [3, 1, 0] else [c, 0]

/-- The `__name__` of each fixture class. -/
def namesT : Nat → String := fun c => "T" ++ toString c

/-- A trait with multi-dispatch registrations `(A, B) ↦ 11` and
`(Base, Base) ↦ 12`. -/
def dAB : TraitDispatcher := ⟨"interact", [], [], [([2, 3], 11), ([1, 1], 12)], []⟩

/-- A trait with multi-dispatch registrations `(Base, A) ↦ 21` and
`(A, Base) ↦ 22`. -/
def dLeft : TraitDispatcher := ⟨"interact", [], [], [([1, 2], 21), ([2, 1], 22)], []⟩

/-- A trait with the single-dispatch registration `Base ↦ 10`. -/
def dBase : TraitDispatcher := ⟨"describe", [(1, 10)], [], [], []⟩

/-- A trait with no registrations. -/
def dEmpty : TraitDispatcher := ⟨"t", [], [], [], []⟩

/-! # Helper lemmas -/

theorem firstSome_append {α β : Type} (f : α → Option β) (l1 l2 : List α) :
    firstSome f (l1 ++ l2) =
      (match firstSome f l1 with
       | some b => some b
       | none => firstSome f l2) := by
  induction l1 with
  | nil => simp [firstSome]
  | cons a l ih =>
      simp only [List.cons_append, firstSome]
      cases f a <;> simp [ih]

theorem firstSome_map {α γ β : Type} (g : α → γ) (f : γ → Option β) (l : List α) :
    firstSome f (l.map g) = firstSome (fun a => f (g a)) l := by
  induction l with
  | nil => rfl
  | cons a l ih =>
      simp only [List.map_cons, firstSome]
      cases f (g a) <;> simp [ih]

theorem firstSome_prependEach (f : List Nat → Option Nat) (m : List Nat)
    (tails : List (List Nat)) :
    firstSome f (prependEach m tails) =
      firstSome (fun t => firstSome (fun tl => f (t :: tl)) tails) m := by
  induction m with
  | nil => rfl
  | cons t ms ih =>
      rw [prependEach, firstSome_append, firstSome_map]
      simp only [firstSome]
      cases firstSome (fun tl => f (t :: tl)) tails <;> simp [ih]

/-- The recursive `search_mro` loop is the first registry hit over the
position-major cartesian product of the per-position MROs. -/
theorem searchMro_eq (reg : List (List Nat × Nat)) (mros : List (List Nat))
    (current : List Nat) :
    searchMro reg mros current =
      firstSome (fun key => lookupA reg (current ++ key)) (cartProd mros) := by
  induction mros generalizing current with
  | nil =>
      simp only [searchMro, cartProd, firstSome, List.append_nil]
      cases lookupA reg current <;> rfl
  | cons m rest ih =>
      simp only [searchMro, cartProd]
      rw [firstSome_prependEach]
      refine congrArg (firstSome · m) ?_
      funext t
      rw [ih]
      refine congrArg (firstSome · (cartProd rest)) ?_
      funext key
      simp [List.append_assoc]

theorem unitNew_slot (s : Option Nat × Nat) : (unitNew s).2.1 = some (unitNew s).1 := by
  rcases s with ⟨slot, ctr⟩
  cases slot <;> rfl

theorem unitConstructions_of_slot (i : Nat) :
    ∀ (s : Option Nat × Nat) (k : Nat), s.1 = some i → unitConstructions s k = i := by
  intro s k
  induction k generalizing s with
  | zero =>
      rcases s with ⟨slot, ctr⟩
      intro h
      simp only at h
      subst h
      rfl
  | succ k ih =>
      rcases s with ⟨slot, ctr⟩
      intro h
      simp only at h
      subst h
      exact ih (some i, ctr) rfl

theorem unwrapOne_plain (env : Nat → UnionVal) (c : Nat)
    (h : notMulti (env c) = true) :
    unwrapOne env (.ofCls c) = [c] := by
  cases he : env c with
  | multi a rest => rw [he] at h; simp [notMulti] at h
  | noAttr => simp [unwrapOne, he]
  | singleCls v => simp [unwrapOne, he]

theorem unwrapTypes_plain (env : Nat → UnionVal) (l : List Nat)
    (h : ∀ c ∈ l, notMulti (env c) = true) :
    unwrapTypes env (l.map .ofCls) = l := by
  induction l with
  | nil => rfl
  | cons c l ih =>
      have hc := h c (List.mem_cons_self c l)
      have hl : ∀ x ∈ l, notMulti (env x) = true :=
        fun x hx => h x (List.mem_cons_of_mem _ hx)
      simp only [List.map_cons, unwrapTypes, List.flatten_cons]
      rw [unwrapOne_plain env c hc]
      have := ih hl
      simp only [unwrapTypes] at this
      rw [this]
      rfl

/-! # Claims -/

/-- C2 counterexample: the synthesized value-variant class exposes the payload
through the `value` property (and the `_value` slot) only; reading `.payload`
on `PaymentStatus.Authorized("tx_123")` raises `AttributeError` instead of
yielding the payload. -/
theorem c2_payload_attr_absent :
    valueGetAttr ⟨AuthorizedCls, .str "tx_123"⟩ "payload" = none
    ∧ valueGetAttr ⟨AuthorizedCls, .str "tx_123"⟩ "payload" ≠ some (.str "tx_123") := by
  decide

/-- C2 (amended): declaring `PaymentStatus` with variants `Pending` (unit),
`Authorized` (value), `Failed` (value) binds `Authorized` to a synthesized
value-variant class; constructing `PaymentStatus.Authorized("tx_123")` yields
an instance whose `.value` accessor equals `"tx_123"`, whose `repr` equals
`"PaymentStatus.Authorized('tx_123')"`, and which equals a second,
independently constructed `PaymentStatus.Authorized("tx_123")`. -/
theorem c2_payment_status_scenario :
    lookupA PaymentStatusDecl "Authorized" = some (.valueV AuthorizedCls)
    ∧ valueGetAttr ⟨AuthorizedCls, .str "tx_123"⟩ "value" = some (.str "tx_123")
    ∧ valueRepr ⟨AuthorizedCls, .str "tx_123"⟩
        = "PaymentStatus.Authorized(" ++ singleQuote ++ "tx_123" ++ singleQuote ++ ")"
    ∧ valueEq ⟨AuthorizedCls, .str "tx_123"⟩ ⟨AuthorizedCls, .str "tx_123"⟩ = true := by
  decide

/-- C9: on every constructed variant instance, unit or value, attribute
assignment and attribute deletion raise the `AttributeError` immutability
error, for every attribute name and every assigned value. -/
theorem c9_immutability (v : ValueInst) (u : VariantClass) (attr : String) (val : PyVal) :
    valueSetAttr v attr val = .error (.attributeError (v.cls.vname ++ " is immutable"))
    ∧ valueDelAttr v attr = .error (.attributeError (v.cls.vname ++ " is immutable"))
    ∧ unitSetAttr u attr val = .error (.attributeError (u.vname ++ " is immutable"))
    ∧ unitDelAttr u attr = .error (.attributeError (u.vname ++ " is immutable")) :=
  ⟨rfl, rfl, rfl, rfl⟩

/-- C10: from any state of the unit variant's `_instance` slot and allocator,
every construction returns the same object identity as the first one: the
unit variant is a process-wide singleton. -/
theorem c10_unit_singleton (s : Option Nat × Nat) (k : Nat) :
    unitConstructions s k = unitConstructions s 0 := by
  rcases s with ⟨slot, ctr⟩
  cases slot with
  | some i =>
      rw [unitConstructions_of_slot i (some i, ctr) k rfl,
        unitConstructions_of_slot i (some i, ctr) 0 rfl]
  | none =>
      cases k with
      | zero => rfl
      | succ k =>
          show unitConstructions (unitNew (none, ctr)).2 k = _
          rw [unitConstructions_of_slot ctr (unitNew (none, ctr)).2 k rfl]
          rfl

/-- C1 counterexample: applying `impl` with a single type argument to an
implementation function declaring 2 parameters registers it in the
single-dispatch registry and leaves the multi-dispatch registry empty,
contradicting the claim that the declared parameter count decides. -/
theorem c1_counterexample :
    (traitImpl env0 dEmpty [.ofCls 5] ⟨2, 7⟩).regMulti = []
    ∧ (traitImpl env0 dEmpty [.ofCls 5] ⟨2, 7⟩).regSingle = [(5, 7)] := by
  decide

/-- C1 (amended): which registry receives a registration is determined by the
number of type arguments supplied to `impl(...)` — the multi-dispatch
registry exactly when two or more type arguments were supplied — and is
independent of the implementation function's declared parameter count. -/
theorem c1_registry_selection (env : Nat → UnionVal) (d : TraitDispatcher)
    (ts : List TyArg) (pc pc' n : Nat) :
    traitImpl env d ts ⟨pc, n⟩ = traitImpl env d ts ⟨pc', n⟩
    ∧ (traitImpl env d ts ⟨pc, n⟩).regMulti
        = (if 1 < ts.length then insertA d.regMulti (ts.map (unwrapFirst env)) n
           else d.regMulti)
    ∧ (traitImpl env d ts ⟨pc, n⟩).regSingle
        = (if 1 < ts.length then d.regSingle
           else (unwrapTypes env ts).foldl (fun r t => insertA r t n) d.regSingle) := by
  by_cases h : 1 < ts.length <;> simp [traitImpl, h]

/-- C5: registering an implementation clears the dispatch cache of the
registry it modifies (the multi cache when two or more type arguments were
supplied, the single cache otherwise); concretely, after resolving
`describe(A())` to the `Base` implementation (caching it for `A`), then
registering a more specific implementation for `A`, resolving again invokes
the newly registered implementation, not the cached one. -/
theorem c5_cache_invalidation (env : Nat → UnionVal) (d : TraitDispatcher)
    (ts : List TyArg) (f : PyFunc) :
    (traitImpl env d ts f).cacheMulti = (if 1 < ts.length then [] else d.cacheMulti)
    ∧ (traitImpl env d ts f).cacheSingle = (if 1 < ts.length then d.cacheSingle else [])
    ∧ (traitCall mroH namesT dBase [2]).1.2 = .ok 10
    ∧ (traitCall mroH namesT dBase [2]).2.cacheSingle = [(2, 10)]
    ∧ (traitCall mroH namesT
        (traitImpl env0 (traitCall mroH namesT dBase [2]).2 [.ofCls 2] ⟨1, 20⟩)
        [2]).1.2 = .ok 20 := by
  refine ⟨?_, ?_, by decide, by decide, by decide⟩ <;>
    by_cases h : 1 < ts.length <;> simp [traitImpl, h]

/-- C6 counterexample: a multi-dispatch resolution that misses the cache and
whose search finds nothing stores no cache entry: with registry
`{(T9, T9) ↦ 1}` and argument tuple `(A, B)`, the search fails and the cache
stays empty, so the structural absence is not cached. -/
theorem c6_counterexample :
    (findImplementationMulti mroH [2, 3] [([9, 9], 1)] []).1 = none
    ∧ (findImplementationMulti mroH [2, 3] [([9, 9], 1)] []).2 = []
    ∧ lookupA (findImplementationMulti mroH [2, 3] [([9, 9], 1)] []).2 [2, 3] = none := by
  decide

/-- C6 (amended): after a cache miss, the computed outcome is stored in the
multi-dispatch cache keyed by the original argument-type tuple only when an
implementation is found (exactly or by the MRO search); when the search finds
nothing, the cache is left unchanged and a repeated identical call repeats
the search. -/
theorem c6_cache_on_hit_only (mro : Nat → List Nat) (key : List Nat)
    (reg cache : List (List Nat × Nat)) (h : lookupA cache key = none) :
    (findImplementationMulti mro key reg cache).2
      = (match (findImplementationMulti mro key reg cache).1 with
         | some i => insertA cache key i
         | none => cache) := by
  simp only [findImplementationMulti, h]
  cases lookupA reg key with
  | some i => rfl
  | none => cases searchMro reg (key.map mro) [] <;> rfl

/-- Witness for C6: the hypothesis and conclusion of `c6_cache_on_hit_only`
at the concrete registry of `dAB`, where the exact tuple `(A, B)` is
registered and therefore cached. -/
theorem c6_witness :
    lookupA ([] : List (List Nat × Nat)) [2, 3] = none
    ∧ (findImplementationMulti mroH [2, 3] dAB.regMulti []).2 = insertA [] [2, 3] 11 :=
  ⟨by decide,
   (c6_cache_on_hit_only mroH [2, 3] dAB.regMulti [] (by decide)).trans (by decide)⟩

/-- C7 counterexample: `require()` invoked with zero objects raises
`IndexError` from evaluating `objs[0]`, not the precondition `TypeError`
`"requires at least one argument"`. -/
theorem c7_counterexample :
    (traitRequire mroH dAB []).1 = .err (.indexError "tuple index out of range")
    ∧ (traitRequire mroH dAB []).1
        ≠ .err (.typeError ("interact() requires at least one argument")) := by
  decide

/-- C7 (amended): calling the dispatcher with zero arguments immediately
raises the precondition `TypeError` `"requires at least one argument"`;
`require` with zero objects does not perform that check and instead fails
with an `IndexError` when it reads the first object's type — it does not
return a boolean either. -/
theorem c7_zero_arguments (mro : Nat → List Nat) (names : Nat → String)
    (d : TraitDispatcher) :
    (traitCall mro names d []).1
      = ([], .err (.typeError (d.name ++ "() requires at least one argument")))
    ∧ (traitRequire mro d []).1 = .err (.indexError "tuple index out of range") := by
  constructor
  · rfl
  · unfold traitRequire
    have hgate : ¬ (d.regMulti ≠ [] ∧ 2 ≤ ([] : List Nat).length) := by simp
    rw [if_neg hgate]
    rfl

/-- C3: a multi-dispatch resolution that misses the cache chooses the exact
tuple's implementation when registered; otherwise it chooses the first
registry hit of the depth-first, position-major search over the cartesian
product of the argument types' MROs (position 0 outermost).  Concretely,
with `(A, B)` and `(Base, Base)` registered, a call on `(A, B)` invokes the
`(A, B)` implementation; a call on `(A, A)` falls back to `(Base, Base)`;
and with `(Base, A)` and `(A, Base)` registered, a call on `(A, A)` invokes
`(A, Base)` — the leftmost argument's specificity breaks the tie. -/
theorem c3_multi_resolution (mro : Nat → List Nat) (reg cache : List (List Nat × Nat))
    (key : List Nat) (i : Nat) :
    (lookupA cache key = none → lookupA reg key = some i →
      (findImplementationMulti mro key reg cache).1 = some i)
    ∧ (lookupA cache key = none → lookupA reg key = none →
      (findImplementationMulti mro key reg cache).1
        = firstSome (fun k => lookupA reg k) (cartProd (key.map mro)))
    ∧ (traitCall mroH namesT dAB [2, 3]).1.2 = .ok 11
    ∧ (traitCall mroH namesT dAB [2, 2]).1.2 = .ok 12
    ∧ (traitCall mroH namesT dLeft [2, 2]).1.2 = .ok 22 := by
  refine ⟨?_, ?_, by decide, by decide, by decide⟩
  · intro h1 h2
    simp [findImplementationMulti, h1, h2]
  · intro h1 h2
    simp only [findImplementationMulti, h1, h2]
    rw [searchMro_eq]
    simp only [List.nil_append]
    cases firstSome (fun k => lookupA reg k) (cartProd (key.map mro)) <;> rfl

/-- Witness for C3: both hypothesis-bearing clauses of `c3_multi_resolution`
discharged at concrete inputs — exact hit on `(A, B)` against `dAB`'s
registry, and the search characterization on `(A, A)` (no exact entry). -/
theorem c3_witness :
    (lookupA ([] : List (List Nat × Nat)) [2, 3] = none
      ∧ lookupA dAB.regMulti [2, 3] = some 11
      ∧ (findImplementationMulti mroH [2, 3] dAB.regMulti []).1 = some 11)
    ∧ (lookupA ([] : List (List Nat × Nat)) [2, 2] = none
      ∧ lookupA dAB.regMulti [2, 2] = none
      ∧ (findImplementationMulti mroH [2, 2] dAB.regMulti []).1
          = firstSome (fun k => lookupA dAB.regMulti k) (cartProd ([2, 2].map mroH))) :=
  ⟨⟨by decide, by decide,
    (c3_multi_resolution mroH dAB.regMulti [] [2, 3] 11).1 (by decide) (by decide)⟩,
   ⟨by decide, by decide,
    (c3_multi_resolution mroH dAB.regMulti [] [2, 2] 11).2.1 (by decide) (by decide)⟩⟩

/-- C4 counterexample: a sum type declared with a single variant does not
unwrap to its variant list — `Union[X]` collapses to `X`, so `_unwrap_types`
returns the sum type itself unchanged (class `0` of `env1`, declared with the
single variant class `1`, unwraps to `[0]`, not `[1]`); moreover unwrapping
is not idempotent when a variant is itself a declared sum type (class `2` of
`env1` unwraps to `[3, 4]`, which unwraps again to `[5, 6, 4]`). -/
theorem c4_counterexample :
    unwrapTypes env1 [.ofCls 0] = [0]
    ∧ unwrapTypes env1 [.ofCls 0] ≠ [1]
    ∧ unwrapTypes env1 ((unwrapTypes env1 [.ofCls 2]).map .ofCls)
        ≠ unwrapTypes env1 [.ofCls 2] := by
  decide

/-- C4 (amended): the type-unwrap operation is pure; a type whose `_union`
attribute is absent or is not a built-in union (which includes a sum type
declared with a single distinct variant type, whose `Union` collapses to
that type) unwraps to a one-element sequence containing that type unchanged;
a declared sum type whose deduplicated variant types number at least two
unwraps to exactly those variant types, first occurrences in declaration
order; and unwrapping is idempotent provided no constituent of the first
unwrapping is itself union-attributed. -/
theorem c4_unwrap_amended :
    (∀ (env : Nat → UnionVal) (c : Nat), notMulti (env c) = true →
      unwrapOne env (.ofCls c) = [c])
    ∧ (∀ (env : Nat → UnionVal) (c a b : Nat) (rest cs : List Nat),
        env c = mkUnionVal cs → dedupFirst cs = a :: b :: rest →
        unwrapOne env (.ofCls c) = dedupFirst cs)
    ∧ (∀ (env : Nat → UnionVal) (ts : List TyArg),
        (∀ c ∈ unwrapTypes env ts, notMulti (env c) = true) →
        unwrapTypes env ((unwrapTypes env ts).map .ofCls) = unwrapTypes env ts) := by
  refine ⟨fun env c h => unwrapOne_plain env c h, ?_, fun env ts h => unwrapTypes_plain env _ h⟩
  intro env c a b rest cs he hd
  simp [unwrapOne, he, mkUnionVal, hd]

/-- Witness for C4: all three clauses of `c4_unwrap_amended` discharged at
concrete inputs over `env1`. -/
theorem c4_witness :
    (notMulti (env1 1) = true ∧ unwrapOne env1 (.ofCls 1) = [1])
    ∧ (env1 2 = mkUnionVal [3, 4] ∧ dedupFirst [3, 4] = 3 :: 4 :: []
        ∧ unwrapOne env1 (.ofCls 2) = dedupFirst [3, 4])
    ∧ ((∀ c ∈ unwrapTypes env1 [.ofCls 9], notMulti (env1 c) = true)
        ∧ unwrapTypes env1 ((unwrapTypes env1 [.ofCls 9]).map .ofCls)
            = unwrapTypes env1 [.ofCls 9]) :=
  ⟨⟨by decide, c4_unwrap_amended.1 env1 1 (by decide)⟩,
   ⟨by decide, by decide,
    c4_unwrap_amended.2.1 env1 2 3 4 [] [3, 4] (by decide) (by decide)⟩,
   ⟨by decide, c4_unwrap_amended.2.2 env1 [.ofCls 9] (by decide)⟩⟩

theorem callSingleTail_miss (mro : Nat → List Nat) (names : Nat → String)
    (d : TraitDispatcher) (a : Nat) (rest : List Nat)
    (h : (findImplementationSingle mro a d.regSingle d.cacheSingle).1 = none) :
    (callSingleTail mro names d a rest).1
      = (if d.regMulti ≠ [] ∧ rest ≠ [] then
           ([multiMissMsg names d.name a rest],
            .err (.notImplementedError (multiMissMsg names d.name a rest)))
         else
           ([singleMissMsg names d.name a],
            .err (.notImplementedError (singleMissMsg names d.name a)))) := by
  rcases he : findImplementationSingle mro a d.regSingle d.cacheSingle with ⟨r, c⟩
  rw [he] at h
  simp only at h
  subst h
  simp only [callSingleTail, he]
  by_cases hg : d.regMulti ≠ [] ∧ rest ≠ []
  · rw [if_pos hg, if_pos hg]
  · rw [if_neg hg, if_neg hg]

/-- C8: whenever a call with at least one argument fails to resolve, exactly
one warning is emitted and then the `NotImplementedError` is raised, the
warning and the error carrying the same message, which names the trait and
the offending types — all argument types when the multi-dispatch registry is
nonempty and two or more arguments were passed, the first argument's type
otherwise; resolution failure is never silent. -/
theorem c8_failure_warns_and_raises (mro : Nat → List Nat) (names : Nat → String)
    (d : TraitDispatcher) (a : Nat) (rest : List Nat)
    (h : ((traitCall mro names d (a :: rest)).1.2).isErr = true) :
    (traitCall mro names d (a :: rest)).1
      = (if d.regMulti ≠ [] ∧ rest ≠ [] then
           ([multiMissMsg names d.name a rest],
            .err (.notImplementedError (multiMissMsg names d.name a rest)))
         else
           ([singleMissMsg names d.name a],
            .err (.notImplementedError (singleMissMsg names d.name a)))) := by
  by_cases hg : d.regMulti ≠ [] ∧ rest ≠ []
  · rcases hm : findImplementationMulti mro (a :: rest) d.regMulti d.cacheMulti with ⟨r, c⟩
    cases r with
    | some i =>
        exfalso
        have hok : (traitCall mro names d (a :: rest)).1.2 = .ok i := by
          simp [traitCall, if_pos hg, hm]
        rw [hok] at h
        simp [CallOutcome.isErr] at h
    | none =>
        have hred : traitCall mro names d (a :: rest)
            = callSingleTail mro names { d with cacheMulti := c } a rest := by
          simp [traitCall, if_pos hg, hm]
        rw [hred] at h ⊢
        rcases hs : findImplementationSingle mro a d.regSingle d.cacheSingle with ⟨rs, cs⟩
        cases rs with
        | some j =>
            exfalso
            have hok : (callSingleTail mro names { d with cacheMulti := c } a rest).1.2
                = .ok j := by
              simp [callSingleTail, hs]
            rw [hok] at h
            simp [CallOutcome.isErr] at h
        | none =>
            rw [callSingleTail_miss mro names _ a rest (by rw [hs])]
  · have hred : traitCall mro names d (a :: rest) = callSingleTail mro names d a rest := by
      simp only [traitCall, if_neg hg]
    rw [hred] at h ⊢
    rcases hs : findImplementationSingle mro a d.regSingle d.cacheSingle with ⟨rs, cs⟩
    cases rs with
    | some j =>
        exfalso
        have hok : (callSingleTail mro names d a rest).1.2 = .ok j := by
          simp [callSingleTail, hs]
        rw [hok] at h
        simp [CallOutcome.isErr] at h
    | none =>
        rw [callSingleTail_miss mro names d a rest (by rw [hs])]

/-- Witness for C8: the failing single-argument call `t(T5())` on a trait
with no registrations emits exactly the one warning and raises the error
with the same message. -/
theorem c8_witness :
    ((traitCall mroH namesT dEmpty [5]).1.2).isErr = true
    ∧ (traitCall mroH namesT dEmpty [5]).1
        = (if dEmpty.regMulti ≠ [] ∧ ([] : List Nat) ≠ [] then
             ([multiMissMsg namesT dEmpty.name 5 []],
              .err (.notImplementedError (multiMissMsg namesT dEmpty.name 5 [])))
           else
             ([singleMissMsg namesT dEmpty.name 5],
              .err (.notImplementedError (singleMissMsg namesT dEmpty.name 5)))) :=
  ⟨by decide, c8_failure_warns_and_raises mroH namesT dEmpty 5 [] (by decide)⟩
